import Mathlib

/-!
Verification of the PR-checker inference-fallback core against its source.

The definitions below are a shallow embedding of the JavaScript in
`src/utils/openrouter-utils.js` (`callModelWithPrompt`,
`callModelWithFallbacks`, `saveResults`), `src/lib/openrouter.js`
(`analyzeWithOpenRouter`) and the retry flow of
`src/models/test-gemini.js` (`testGemini`).

Modelling conventions:
  * JSON values are the inductive `Json`; JavaScript `undefined` is `none`
    in an `Option Json`.  `JSON.parse` is an explicit deterministic
    function argument `parse : String -> Except String Json` (`.error` is
    a thrown parse exception); the network is an explicit environment
    mapping each model name to the fetch outcome, so every claim is
    quantified over all provider behaviours.
  * Code that can throw is written in `Except String`; a JS `try/catch`
    is the surrounding `match`.  `async`/`await` sequencing collapses to
    ordinary sequencing (one orchestration is single-tasked in the
    source).
  * Request construction (prompts, headers) does not influence any
    classification decision in the source, so it is absorbed into the
    fetch environment.
-/

/-- JSON values as produced by a successful `JSON.parse`.  Numbers are
modelled as integers: the embedded code only ever parses integral retry
delays and compares nothing else numerically. -/
inductive Json where
  | null
  | bool (b : Bool)
  | num (n : Int)
  | str (s : String)
  | arr (elems : List Json)
  | obj (fields : List (String × Json))

/-- Field lookup in a parsed JSON object (objects coming out of
`JSON.parse` carry each key once, the last duplicate having won). -/
def lookupField : List (String × Json) → String → Option Json
  | [], _ => none
  | (k, v) :: rest, key => if k = key then some v else lookupField rest key

/-- JavaScript truthiness of a JSON value. -/
def truthy : Json → Bool
  | .null => false
  | .bool b => b
  | .num n => !(n == 0)
  | .str s => !(s == "")
  | .arr _ => true
  | .obj _ => true

/-- JavaScript truthiness where `none` stands for `undefined`. -/
def truthyO : Option Json → Bool
  | none => false
  | some j => truthy j

/-- Plain property access `v.key`: throws a TypeError on `null` and
`undefined`, yields `undefined` on primitives, looks the key up on
objects (none of the accessed keys is a built-in string/array
property). -/
def jsGetE (v : Option Json) (key : String) : Except String (Option Json) :=
  match v with
  | none => .error ("Cannot read properties of undefined reading " ++ key)
  | some .null => .error ("Cannot read properties of null reading " ++ key)
  | some (.obj fields) => .ok (lookupField fields key)
  | some _ => .ok none

/-- Optional-chained property access `v?.key` (and access on a value
already known non-nullish): never throws. -/
def jsOptGet (v : Option Json) (key : String) : Option Json :=
  match v with
  | none => none
  | some .null => none
  | some (.obj fields) => lookupField fields key
  | some _ => none

/-- Index access `j[i]`: array element, string character, or the
numeric-string key of an object; `undefined` otherwise. -/
def jsIdx (j : Json) (i : Nat) : Option Json :=
  match j with
  | .arr elems => elems.get? i
  | .str s => (s.data.get? i).map (fun c => .str (String.mk [c]))
  | .obj fields => lookupField fields (toString i)
  | _ => none

/-- Index access lifted to a possibly-undefined value (only ever applied
after a truthiness guard in the embedded code). -/
def jsIdxO (v : Option Json) (i : Nat) : Option Json :=
  match v with
  | none => none
  | some j => jsIdx j i

mutual

/-- String conversion JavaScript applies to a non-string argument of
`JSON.parse` (`String(x)`): arrays join their elements with commas,
`null` elements joining as the empty string, objects print as
`[object Object]`. -/
def jsToString : Json → String
  | .null => "null"
  | .bool true => "true"
  | .bool false => "false"
  | .num n => toString n
  | .str s => s
  | .obj _ => "[object Object]"
  | .arr elems => jsArrJoin elems

/-- Comma join of `String([...])`, where `null` elements render empty. -/
def jsArrJoin : List Json → String
  | [] => ""
  | [.null] => ""
  | [e] => jsToString e
  | .null :: rest => "," ++ jsArrJoin rest
  | e :: rest => jsToString e ++ "," ++ jsArrJoin rest

end

/-- Whitespace skipped by `parseInt`. -/
def jsWhitespace (c : Char) : Bool :=
  c = ' ' || c = '\t' || c = '\n' || c = '\r' || c = '\x0b' || c = '\x0c'

/-- Leading decimal digits of a character list; `none` when there is no
digit at all (`parseInt` returning `NaN`). -/
def leadingDigits : List Char → Option Nat → Option Nat
  | [], acc => acc
  | c :: rest, acc =>
    if c.isDigit then
      leadingDigits rest (some ((acc.getD 0) * 10 + (c.toNat - '0'.toNat)))
    else acc

/-- JavaScript `parseInt` restricted to decimal notation (the embedded
code only ever feeds it protobuf durations such as `"30s"` with the `s`
removed); `none` models `NaN`. -/
def jsParseInt (s : String) : Option Int :=
  match s.data.dropWhile jsWhitespace with
  | '-' :: rest => (leadingDigits rest none).map (fun n => -(n : Int))
  | '+' :: rest => (leadingDigits rest none).map (fun n => (n : Int))
  | cs => (leadingDigits cs none).map (fun n => (n : Int))

/-- Removal of the first occurrence of a character, as in
`retryDelay.replace('s', '')` with a string pattern. -/
def replaceFirstChar (target : Char) : List Char → List Char
  | [] => []
  | c :: rest => if c = target then rest else c :: replaceFirstChar target rest

/-- The source's `.replace('s', '')` applied to a retry-delay hint. -/
def jsReplaceS (s : String) : String :=
  String.mk (replaceFirstChar 's' s.data)

/-- Substring test, as in `model.includes(':free')`. -/
def listContains (s pat : List Char) : Bool :=
  pat.isPrefixOf s ||
    (match s with
     | [] => false
     | _ :: rest => listContains rest pat)

/-- JavaScript `s.includes(pat)`. -/
def strIncludes (s pat : String) : Bool :=
  listContains s.data pat.data

/-! ## The single-backend invoker: `callModelWithPrompt`
(`src/utils/openrouter-utils.js`, lines 156-292). -/

/-- HTTP response as the invoker observes it: status, status text, and
the outcome of `await response.text()` (whose rejection the outer
`catch` turns into a failure value). `response.ok` is derived from the
status as in the fetch specification. -/
structure FetchResp where
  status : Nat
  statusText : String
  text : Except String String

/-- The plain object `callModelWithPrompt` resolves with. `none` fields
model properties the source object does not carry on that branch. -/
structure CallResult where
  success : Bool
  content : Option Json := none
  modelUsed : Option Json := none
  usage : Option Json := none
  rawResponse : Option Json := none
  error : Option String := none
  retryAfter : Option Int := none

/-- Failure value `{ success: false, error: e }`. -/
def failResult (e : String) : CallResult :=
  { success := false, error := some e }

/-- Rate-limit failure value carrying a retry delay:
`{ success: false, error: e, retryAfter: d }`. -/
def retryResult (e : String) (d : Int) : CallResult :=
  { success := false, error := some e, retryAfter := some d }

/-- Failure value for a well-formed response without the expected
message envelope. -/
def invalidFormatResult (responseText : String) : CallResult :=
  failResult ("Invalid response format: Missing choices or message. Raw response: "
    ++ responseText)

/-- The `retryDelay` dig of the 429 branch:
`errorData.error?.metadata?.raw ? JSON.parse(raw)?.error?.details?.find(d => d['@type'] === RetryInfo)?.retryDelay : null`.
Runs inside the source's inner `try`, so `.error` is an exception the
inner `catch` swallows. -/
def findRetryInfo : List Json → Except String (Option Json)
  | [] => .ok none
  | d :: rest =>
    match jsGetE (some d) ("@type") with
    | .error e => .error e
    | .ok t =>
      match t with
      | some (.str s) =>
        if s = "type.googleapis.com/google.rpc.RetryInfo" then .ok (some d)
        else findRetryInfo rest
      | _ => findRetryInfo rest

/-- The nested retry-delay extraction from a parsed 429 error body. -/
def digRetryDelay (parse : String → Except String Json) (errorData : Json) :
    Except String (Option Json) :=
  match jsGetE (some errorData) ("error") with
  | .error e => .error e
  | .ok errF =>
    let raw := jsOptGet (jsOptGet errF ("metadata")) ("raw")
    if truthyO raw then
      match parse (jsToString (raw.getD .null)) with
      | .error e => .error e
      | .ok parsed =>
        match jsOptGet (jsOptGet (some parsed) ("error")) ("details") with
        | none => .ok none
        | some .null => .ok none
        | some (.arr elems) =>
          match findRetryInfo elems with
          | .error e => .error e
          | .ok found => .ok (jsOptGet found ("retryDelay"))
        | some _ => .error ("details.find is not a function")
    else
      .ok none

/-- The whole inner `try` of the 429 branch: parse the error body, dig
out the hint, turn a truthy string hint into seconds with
`parseInt(hint.replace('s','')) || 60`. `.ok (some d)` means the branch
returns a retryable failure proposing `d`; `.ok none` means no hint was
found; `.error` is an exception the inner `catch` logs, after which the
generic rate-limit failure is returned. -/
def rateLimitRetrySeconds (parse : String → Except String Json)
    (responseText : String) : Except String (Option Int) :=
  match parse responseText with
  | .error e => .error e
  | .ok errorData =>
    match digRetryDelay parse errorData with
    | .error e => .error e
    | .ok hint =>
      if truthyO hint then
        match hint with
        | some (.str s) =>
          match jsParseInt (jsReplaceS s) with
          | some n => .ok (some (if n = 0 then 60 else n))
          | none => .ok (some 60)
        | _ => .error ("retryDelay.replace is not a function")
      else
        .ok none

/-- The value returned from the `response.status === 429` branch. -/
def rateLimitedResult (parse : String → Except String Json) (model : String)
    (responseText : String) : CallResult :=
  match rateLimitRetrySeconds parse responseText with
  | .ok (some d) =>
    retryResult ("Rate limit exceeded. Retry after " ++ toString d ++ " seconds.") d
  | _ => failResult ("Rate limit exceeded for " ++ model ++ ". Try again later.")

/-- Body of `callModelWithPrompt` inside its outer `try`; `.error` is a
thrown exception the outer `catch` converts with
`{ success: false, error: error.message }`. -/
def callModelBody (parse : String → Except String Json) (model : String)
    (fetched : Except String FetchResp) : Except String CallResult :=
  match fetched with
  | .error e => .error e
  | .ok resp =>
    match resp.text with
    | .error e => .error e
    | .ok responseText =>
      if resp.status = 429 then
        .ok (rateLimitedResult parse model responseText)
      else if 200 ≤ resp.status ∧ resp.status ≤ 299 then
        match parse responseText with
        | .error e =>
          .ok (failResult ("Failed to parse response: " ++ e))
        | .ok data =>
          match jsGetE (some data) ("choices") with
          | .error e => .error e
          | .ok choicesF =>
            if truthyO choicesF = false then
              .ok (invalidFormatResult responseText)
            else if truthyO (jsIdxO choicesF 0) = false then
              .ok (invalidFormatResult responseText)
            else if truthyO (jsOptGet (jsIdxO choicesF 0) ("message")) = false then
              .ok (invalidFormatResult responseText)
            else
              .ok { success := true
                    content := jsOptGet (jsOptGet (jsIdxO choicesF 0) ("message")) ("content")
                    modelUsed :=
                      if truthyO (jsOptGet (some data) ("model")) then
                        jsOptGet (some data) ("model")
                      else some (.str model)
                    usage := jsOptGet (some data) ("usage")
                    rawResponse := some data }
      else if resp.status = 402 ∧ strIncludes model (":free") = false then
        .ok (failResult ("Payment required for " ++ model ++
          ". Try adding \x27:free\x27 to the model name or choose a different model."))
      else
        .ok (failResult (toString resp.status ++ " " ++ resp.statusText ++ ": " ++
          responseText))

/-- The single-backend invoker `callModelWithPrompt`: one attempt
against one model, every provider behaviour and every exception
normalised into a plain `CallResult`. -/
def callModelWithPrompt (parse : String → Except String Json) (model : String)
    (fetched : Except String FetchResp) : CallResult :=
  match callModelBody parse model fetched with
  | .ok r => r
  | .error e => failResult e

/-! ## The fallback orchestrator: `callModelWithFallbacks`
(`src/utils/openrouter-utils.js`, lines 295-316).

The source tries the primary inside a `try`, reaches the fallback loop
only from the `catch`, and each fallback again only advances on a thrown
exception. The embedding therefore takes the invoker as a function into
`Except String CallResult`: `.ok` is the promise resolving (with a
success *or failure* value), `.error` a rejection. Alongside the result
it returns the trace of models actually invoked, in order. -/

/-- The `for (const fallbackModel of fallbackModels)` loop reached from
the catch, with the primary's error message for the final throw. -/
def fallbackLoop (invoke : String → Except String CallResult) (origMsg : String) :
    List String → Except String CallResult × List String
  | [] => (.error ("All models failed. Original error: " ++ origMsg), [])
  | m :: rest =>
    match invoke m with
    | .ok r => (.ok r, [m])
    | .error _ =>
      match fallbackLoop invoke origMsg rest with
      | (res, ms) => (res, m :: ms)

/-- The fallback orchestrator `callModelWithFallbacks`: result plus the
ordered trace of invoked models. -/
def callModelWithFallbacks (invoke : String → Except String CallResult)
    (primaryModel : String) (fallbackModels : List String) :
    Except String CallResult × List String :=
  match invoke primaryModel with
  | .ok r => (.ok r, [primaryModel])
  | .error e =>
    match fallbackLoop invoke e fallbackModels with
    | (res, ms) => (res, primaryModel :: ms)

/-- The orchestrator composed with the real invoker. Since
`callModelWithPrompt` is a total function into `CallResult` — its source
wraps everything after the opening `console.log` in `try/catch` and the
log of a string interpolation cannot throw — its promise always
resolves, which the `.ok` wrapper records. -/
def runFallbackChain (parse : String → Except String Json)
    (env : String → Except String FetchResp)
    (primaryModel : String) (fallbackModels : List String) :
    Except String CallResult × List String :=
  callModelWithFallbacks (fun m => .ok (callModelWithPrompt parse m (env m)))
    primaryModel fallbackModels

/-! ## Result persistence: `saveResults`
(`src/utils/openrouter-utils.js`, lines 319-342). -/

/-- Line terminators, which `.` in a JavaScript regular expression does
not match. -/
def isLineTerm (c : Char) : Bool :=
  c = '\n' || c = '\r' || c = '\u2028' || c = '\u2029'

/-- `segment.replace(/:.*$/, '')`: without the `m` flag `$` matches only
at the very end of the input, so the regex matches at the leftmost `:`
that has no line terminator after it, and deletes from there to the
end; if every colon is followed by a line terminator nothing is
replaced. -/
def regexColonStrip : List Char → List Char
  | [] => []
  | c :: rest =>
    if c = ':' && rest.all (fun x => !isLineTerm x) then []
    else c :: regexColonStrip rest

/-- JavaScript `String.prototype.split` with a one-character separator
(`model.split('/')`). -/
def jsSplitChar (sep : Char) : List Char → List (List Char)
  | [] => [[]]
  | c :: rest =>
    if c = sep then [] :: jsSplitChar sep rest
    else
      match jsSplitChar sep rest with
      | [] => [[c]]
      | g :: gs => (c :: g) :: gs

/-- `model.split('/').pop().replace(/:.*$/, '')` from `saveResults`. -/
def shortModelName (model : String) : String :=
  String.mk (regexColonStrip ((jsSplitChar '/' model.data).getLastD []))

/-- The fields of an invocation result that `saveResults` reads. -/
structure SaveInput where
  success : Bool
  content : String
  error : String

/-- The one file `saveResults` writes for a (model, task, result)
triple: its name and its content. The write itself
(`fs.ensureDir` + `fs.writeFile`) is I/O on these two strings. -/
structure SavedFile where
  fileName : String
  content : String

/-- The persistence operation `saveResults`: success stores the content
verbatim, failure stores an error markdown document. -/
def saveResults (model task : String) (result : SaveInput) : SavedFile :=
  { fileName := shortModelName model ++ "-" ++ task ++ ".md"
    content :=
      if result.success then result.content
      else "# Error with " ++ shortModelName model ++ "\n\n" ++ result.error }

/-! ## The library-level chain: `analyzeWithOpenRouter`
(`src/lib/openrouter.js`, lines 1-92). -/

/-- The built-in model chain of `src/lib/openrouter.js`. -/
def MODEL_FALLBACKS : List String :=
  ["microsoft/phi-3-medium-128k-instruct:free",
   "google/gemini-2.5-pro-exp-03-25:free",
   "openai/gpt-3.5-turbo:free",
   "anthropic/claude-3-haiku:free",
   "meta-llama/llama-3-8b-instruct:free",
   "mistralai/mistral-7b-instruct:free"]

/-- Hex digit for the `JSON.stringify` escapes. -/
def hexDigit (n : Nat) : Char :=
  if n < 10 then Char.ofNat ('0'.toNat + n) else Char.ofNat ('a'.toNat + n - 10)

/-- One character inside a `JSON.stringify` string literal. -/
def escapeJsonChar (c : Char) : String :=
  if c = '"' then ("\\\"")
  else if c = '\\' then ("\\\\")
  else if c = '\n' then ("\\n")
  else if c = '\r' then ("\\r")
  else if c = '\t' then ("\\t")
  else if c = '\x08' then ("\\b")
  else if c = '\x0c' then ("\\f")
  else if c.toNat < 32 then
    "\\u00" ++ String.mk [hexDigit (c.toNat / 16), hexDigit (c.toNat % 16)]
  else String.mk [c]

/-- A `JSON.stringify` string literal. -/
def escapeJsonString (s : String) : String :=
  "\"" ++ String.join (s.data.map escapeJsonChar) ++ "\""

mutual

/-- `JSON.stringify` of a JSON value (used only inside the
`OpenRouter API error` message). -/
def jsonStringify : Json → String
  | .null => "null"
  | .bool true => "true"
  | .bool false => "false"
  | .num n => toString n
  | .str s => escapeJsonString s
  | .arr elems => "[" ++ stringifyElems elems ++ "]"
  | .obj fields => "\x7b" ++ stringifyFields fields ++ "\x7d"

/-- Elements of a stringified array. -/
def stringifyElems : List Json → String
  | [] => ""
  | [e] => jsonStringify e
  | e :: rest => jsonStringify e ++ "," ++ stringifyElems rest

/-- Fields of a stringified object. -/
def stringifyFields : List (String × Json) → String
  | [] => ""
  | [(k, v)] => escapeJsonString k ++ ":" ++ jsonStringify v
  | (k, v) :: rest =>
    escapeJsonString k ++ ":" ++ jsonStringify v ++ "," ++ stringifyFields rest

end

/-- HTTP response as `analyzeWithOpenRouter` observes it: the status and
the outcome of `response.json()` (`.error` = the body is not JSON). -/
structure OResponse where
  status : Nat
  body : Except String Json

/-- Content extraction of `analyzeWithOpenRouter` (lines 67-79): the
guarded `choices[0].message.content` path followed by the duck-typed
alternatives, with the apology string as last resort. `.error` is a
thrown TypeError (`data` was `null`), caught by the loop's `catch`. -/
def extractContent (data : Json) : Except String (Option Json) :=
  match jsGetE (some data) ("choices") with
  | .error e => .error e
  | .ok choicesF =>
    if truthyO choicesF && truthyO (jsIdxO choicesF 0) &&
        truthyO (jsOptGet (jsIdxO choicesF 0) ("message")) then
      .ok (jsOptGet (jsOptGet (jsIdxO choicesF 0) ("message")) ("content"))
    else if truthyO (jsOptGet (some data) ("message")) then
      .ok (jsOptGet (some data) ("message"))
    else if truthyO (jsOptGet (some data) ("content")) then
      .ok (jsOptGet (some data) ("content"))
    else if truthyO choicesF && truthyO (jsIdxO choicesF 0) &&
        truthyO (jsOptGet (jsIdxO choicesF 0) ("content")) then
      .ok (jsOptGet (jsIdxO choicesF 0) ("content"))
    else
      .ok (some (.str ("Could not extract content from API response. See logs for details.")))

/-- Outcome of one loop iteration of `analyzeWithOpenRouter` for one
model: return a value, or record an error and continue (both the 429
`continue` and the `catch` continue to the next model). -/
inductive AttemptOut where
  | ret (v : Option Json)
  | fail (msg : String)

/-- One iteration of the model loop in `analyzeWithOpenRouter`. -/
def analyzeAttempt (env : String → Except String OResponse) (m : String) :
    AttemptOut :=
  match env m with
  | .error e => .fail e
  | .ok resp =>
    if 200 ≤ resp.status ∧ resp.status ≤ 299 then
      match resp.body with
      | .error e => .fail e
      | .ok data =>
        match extractContent data with
        | .ok v => .ret v
        | .error e => .fail e
    else if resp.status = 429 then
      .fail ("Rate limit exceeded for " ++ m)
    else
      .fail ("OpenRouter API error: " ++ toString resp.status ++ " - " ++
        jsonStringify (match resp.body with
          | .ok j => j
          | .error _ => .obj [("message", .str ("Failed to parse error response"))]))

/-- The `for (const currentModel of modelsToTry)` loop with its
`lastError` accumulator and the final
`throw lastError || new Error(...)`. Returns the result (`.error` = the
function threw) and the trace of models attempted, in order. -/
def analyzeLoop (env : String → Except String OResponse) :
    List String → Option String → Except String (Option Json) × List String
  | [], lastError =>
    (.error (match lastError with
      | some e => e
      | none => "All available models failed without specific error"), [])
  | m :: rest, _ =>
    match analyzeAttempt env m with
    | .ret v => (.ok v, [m])
    | .fail e =>
      match analyzeLoop env rest (some e) with
      | (res, ms) => (res, m :: ms)

/-- JavaScript truthiness of `options.model` (`undefined` and the empty
string are falsy). -/
def truthyOptStr : Option String → Bool
  | none => false
  | some s => !(s == "")

/-- `analyzeWithOpenRouter`: a single explicitly requested truthy model
is tried alone, otherwise the built-in chain is traversed. -/
def analyzeWithOpenRouter (env : String → Except String OResponse)
    (optionsModel : Option String) : Except String (Option Json) × List String :=
  let model := optionsModel.getD (MODEL_FALLBACKS.getD 0 (""))
  let modelsToTry := if truthyOptStr optionsModel then [model] else MODEL_FALLBACKS
  analyzeLoop env modelsToTry none

/-! ## The caller-level retry of `test-gemini.js`
(`src/models/test-gemini.js`, lines 31-53): the only wait-then-retry in
the repository. It sleeps `retryAfter * 1000` ms and then calls a fixed
*alternative* model once. -/

/-- The model `testGemini` tests. -/
def geminiTestModel : String := "google/gemini-2.0-pro-exp-02-05:free"

/-- The fixed alternative model `testGemini` switches to on retry. -/
def geminiRetryModel : String := "qwen/qwen-2.5-72b-instruct:free"

/-- JavaScript truthiness of `analysisResult.retryAfter`. -/
def truthyRetryAfter : Option Int → Bool
  | none => false
  | some n => !(n == 0)

/-- Observable behaviour of one `testGemini` task phase: how long it
slept, which models it invoked in order, and what it passed to
`saveResults`. -/
structure GeminiPhase where
  sleptMs : Int
  modelsCalled : List String
  savedModel : String
  savedResult : CallResult

/-- The code-analysis phase of `testGemini`, lines 31-53, over an
abstract invoker (the schema phase, lines 59-81, is the same shape). -/
def testGeminiAnalysisPhase (invoke : String → CallResult) : GeminiPhase :=
  let analysisResult := invoke geminiTestModel
  if !analysisResult.success && truthyRetryAfter analysisResult.retryAfter then
    { sleptMs := (analysisResult.retryAfter.getD 0) * 1000
      modelsCalled := [geminiTestModel, geminiRetryModel]
      savedModel := geminiRetryModel
      savedResult := invoke geminiRetryModel }
  else
    { sleptMs := 0
      modelsCalled := [geminiTestModel]
      savedModel := geminiTestModel
      savedResult := analysisResult }

/-! ## Shared lemmas -/

/-- Normalised shape of an invoker result: either a success value
(carrying no error and no retry hint) or a failure value (carrying an
error message and none of the success payload fields). -/
def normalizedOutcome (r : CallResult) : Prop :=
  (r.success = true ∧ r.error = none ∧ r.retryAfter = none) ∨
  (r.success = false ∧ r.error.isSome = true ∧ r.content = none ∧
   r.modelUsed = none ∧ r.usage = none ∧ r.rawResponse = none)

theorem normalizedOutcome_failResult (e : String) : normalizedOutcome (failResult e) := by
  simp [normalizedOutcome, failResult]

theorem normalizedOutcome_retryResult (e : String) (d : Int) :
    normalizedOutcome (retryResult e d) := by
  simp [normalizedOutcome, retryResult]

theorem normalizedOutcome_invalidFormat (t : String) :
    normalizedOutcome (invalidFormatResult t) := by
  simp [normalizedOutcome, invalidFormatResult, failResult]

theorem normalizedOutcome_rateLimited (parse : String → Except String Json)
    (model t : String) : normalizedOutcome (rateLimitedResult parse model t) := by
  unfold rateLimitedResult
  split
  · exact normalizedOutcome_retryResult _ _
  · exact normalizedOutcome_failResult _

theorem callModelBody_shape (parse : String → Except String Json) (model : String)
    (fetched : Except String FetchResp) :
    ∀ r, callModelBody parse model fetched = .ok r → normalizedOutcome r := by
  intro r h
  unfold callModelBody at h
  split at h
  · exact absurd h (by simp)
  split at h
  · exact absurd h (by simp)
  split at h
  · simp only [Except.ok.injEq] at h
    exact h ▸ normalizedOutcome_rateLimited _ _ _
  split at h
  · split at h
    · simp only [Except.ok.injEq] at h
      exact h ▸ normalizedOutcome_failResult _
    · split at h
      · exact absurd h (by simp)
      split at h
      · simp only [Except.ok.injEq] at h
        exact h ▸ normalizedOutcome_invalidFormat _
      split at h
      · simp only [Except.ok.injEq] at h
        exact h ▸ normalizedOutcome_invalidFormat _
      split at h
      · simp only [Except.ok.injEq] at h
        exact h ▸ normalizedOutcome_invalidFormat _
      · simp only [Except.ok.injEq] at h
        subst h
        left
        simp
  · split at h
    · simp only [Except.ok.injEq] at h
      exact h ▸ normalizedOutcome_failResult _
    · simp only [Except.ok.injEq] at h
      exact h ▸ normalizedOutcome_failResult _

/-- The invoker always resolves with a value in the normalised shape. -/
theorem callModelWithPrompt_shape (parse : String → Except String Json)
    (model : String) (fetched : Except String FetchResp) :
    normalizedOutcome (callModelWithPrompt parse model fetched) := by
  unfold callModelWithPrompt
  cases hb : callModelBody parse model fetched with
  | error e => exact normalizedOutcome_failResult e
  | ok r => exact callModelBody_shape parse model fetched r hb

/-! ## Claim C1 -/

/-- A parse failure for bodies that are not JSON (any deterministic
parse works for these inputs). -/
def c1Parse : String → Except String Json := fun _ => .error ("Unexpected token")

/-- Every model receives HTTP 402 with a plain-text body: every
candidate's invocation yields a hard failure. -/
def c1Env : String → Except String FetchResp := fun _ =>
  .ok { status := 402, statusText := "Payment Required", text := .ok ("insufficient credits") }

/-- C1, evaluated at the failing input: with one fallback configured and
every candidate hard-failing (HTTP 402 everywhere), the orchestrator
`callModelWithFallbacks` invokes only the primary — the trace is
`["openai/gpt-4"]`, one attempt instead of the claimed N+1 = 2 — and
returns the primary's failure value rather than traversing to the
fallback: `callModelWithPrompt` returns failures as values and never
throws, so the `catch`-driven fallback loop is unreachable. -/
theorem c1_fallbacks_unreachable :
    runFallbackChain c1Parse c1Env ("openai/gpt-4") ["anthropic/claude-3-haiku"] =
      (.ok (failResult ("Payment required for openai/gpt-4. Try adding \x27:free\x27 to the model name or choose a different model.")),
       ["openai/gpt-4"]) :=
  rfl

/-! ## Claim C2 -/

/-- C2: the fallback orchestrator never raises — for every parse
function, every provider behaviour and every candidate list it resolves
with a plain value — and that value is either a success or a failure
value carrying an error reason, namely the outcome of the last
candidate attempted (the last entry of the attempt trace). -/
theorem c2_orchestrator_never_raises (parse : String → Except String Json)
    (env : String → Except String FetchResp) (primary : String)
    (fallbacks : List String) :
    ∃ r m,
      (runFallbackChain parse env primary fallbacks).1 = .ok r ∧
      (runFallbackChain parse env primary fallbacks).2.getLast? = some m ∧
      r = callModelWithPrompt parse m (env m) ∧
      (r.success = true ∨ r.error.isSome = true) := by
  refine ⟨callModelWithPrompt parse primary (env primary), primary, rfl, rfl, rfl, ?_⟩
  rcases callModelWithPrompt_shape parse primary (env primary) with ⟨h, -, -⟩ | ⟨-, h, -⟩
  · exact Or.inl h
  · exact Or.inr h

/-! ## Claim C4 -/

/-- C4: if the primary's first invocation succeeds, the orchestrator
returns exactly that success and the attempt trace is the primary
alone — no fallback candidate is ever invoked. -/
theorem c4_first_try_success (parse : String → Except String Json)
    (env : String → Except String FetchResp) (primary : String)
    (fallbacks : List String)
    (_h : (callModelWithPrompt parse primary (env primary)).success = true) :
    runFallbackChain parse env primary fallbacks =
      (.ok (callModelWithPrompt parse primary (env primary)), [primary]) :=
  rfl

/-- Parse function of the C4 witness: the body "good" is a well-formed
chat completion. -/
def c4Parse : String → Except String Json := fun s =>
  if s = "good" then
    .ok (.obj [("choices", .arr [.obj [("message", .obj [("content", .str ("hello"))])]])])
  else .error ("Unexpected token")

/-- Environment of the C4 witness: every model answers 200 with body
"good". -/
def c4Env : String → Except String FetchResp := fun _ =>
  .ok { status := 200, statusText := "OK", text := .ok ("good") }

/-- Witness for C4 at a concrete success: the primary succeeds first
try and the trace is the primary alone. -/
theorem c4_first_try_success_witness :
    (callModelWithPrompt c4Parse ("x/model:free") (c4Env ("x/model:free"))).success = true ∧
    runFallbackChain c4Parse c4Env ("x/model:free") ["y/fb:free"] =
      (.ok (callModelWithPrompt c4Parse ("x/model:free") (c4Env ("x/model:free"))),
       ["x/model:free"]) :=
  ⟨rfl, c4_first_try_success c4Parse c4Env ("x/model:free") ["y/fb:free"] rfl⟩

/-! ## Claim C9 -/

/-- C9: for every parse function, model and fetch outcome — including a
rejected fetch, a rejected body read and an unparsable body — the
invoker `callModelWithPrompt` resolves with a plain value in the
normalised shape: a success carrying no error and no retry hint, or a
failure carrying an error reason and none of the success payload;
no exception and no provider error shape escapes to the caller. -/
theorem c9_invoker_normalizes (parse : String → Except String Json)
    (model : String) (fetched : Except String FetchResp) :
    normalizedOutcome (callModelWithPrompt parse model fetched) :=
  callModelWithPrompt_shape parse model fetched

/-! ## Claim C3 -/

/-- Parse function of the C3 scenario: the 429 body "outer" carries a
Google RetryInfo hint of 5 seconds in its nested raw payload "inner". -/
def c3Parse : String → Except String Json := fun s =>
  if s = "outer" then
    .ok (.obj [("error", .obj [("metadata", .obj [("raw", .str ("inner"))])])])
  else if s = "inner" then
    .ok (.obj [("error", .obj [("details",
      .arr [.obj [("@type", .str ("type.googleapis.com/google.rpc.RetryInfo")),
                  ("retryDelay", .str ("5s"))]])])])
  else .error ("Unexpected token")

/-- Environment of the C3 scenario: every model is rate limited (HTTP
429) with the hint-carrying body. -/
def c3Env : String → Except String FetchResp := fun _ =>
  .ok { status := 429, statusText := "Too Many Requests", text := .ok ("outer") }

/-- C3 counterexample: the primary yields a retryable failure with a
5-second delay hint, yet the orchestrator's attempt trace is the
primary exactly once — it performs no wait and no second attempt on the
same candidate, returning the retryable failure directly, contrary to
the claimed wait-and-retry-once behaviour. -/
theorem c3_counterexample :
    runFallbackChain c3Parse c3Env ("p/model") ["q/model"] =
      (.ok (retryResult ("Rate limit exceeded. Retry after 5 seconds.") 5), ["p/model"]) ∧
    List.count ("p/model") (runFallbackChain c3Parse c3Env ("p/model") ["q/model"]).2 = 1 :=
  ⟨rfl, rfl⟩

/-- C3 amended: on a retryable failure with a delay hint D ≠ 0 the
orchestrator `callModelWithFallbacks` neither waits nor re-attempts —
it returns that failure after a single attempt; the wait-then-retry
exists only in the `testGemini` caller, which sleeps D * 1000
milliseconds and then invokes the fixed *alternative* model
`qwen/qwen-2.5-72b-instruct:free` exactly once, saving that outcome. -/
theorem c3_amended_retry_is_callers_alternative_model
    (parse : String → Except String Json) (env : String → Except String FetchResp)
    (fallbacks : List String) (D : Int)
    (h1 : (callModelWithPrompt parse geminiTestModel (env geminiTestModel)).success = false)
    (h2 : (callModelWithPrompt parse geminiTestModel (env geminiTestModel)).retryAfter = some D)
    (h3 : D ≠ 0) :
    runFallbackChain parse env geminiTestModel fallbacks =
      (.ok (callModelWithPrompt parse geminiTestModel (env geminiTestModel)),
       [geminiTestModel]) ∧
    (testGeminiAnalysisPhase (fun m => callModelWithPrompt parse m (env m))).sleptMs =
      D * 1000 ∧
    (testGeminiAnalysisPhase (fun m => callModelWithPrompt parse m (env m))).modelsCalled =
      [geminiTestModel, geminiRetryModel] ∧
    (testGeminiAnalysisPhase (fun m => callModelWithPrompt parse m (env m))).savedModel =
      geminiRetryModel := by
  have hcond : (!(callModelWithPrompt parse geminiTestModel (env geminiTestModel)).success &&
      truthyRetryAfter (some D)) = true := by
    rw [h1]
    simp [truthyRetryAfter, h3]
  refine ⟨rfl, ?_, ?_, ?_⟩ <;>
    simp only [testGeminiAnalysisPhase, h2, Option.getD_some, hcond, if_true]

/-- Witness for the amended C3 at the concrete 5-second scenario: the
caller flow sleeps 5000 ms and the saved retry model is the fixed
alternative. -/
theorem c3_amended_retry_witness :
    (testGeminiAnalysisPhase (fun m => callModelWithPrompt c3Parse m (c3Env m))).sleptMs = 5000 ∧
    (testGeminiAnalysisPhase (fun m => callModelWithPrompt c3Parse m (c3Env m))).savedModel =
      geminiRetryModel := by
  have h := c3_amended_retry_is_callers_alternative_model c3Parse c3Env [] 5 rfl rfl
    (by decide)
  exact ⟨by rw [h.2.1]; norm_num, h.2.2.2⟩

/-! ## Claim C5 -/

/-- Parse failure for the C5 scenario bodies. -/
def c5Parse : String → Except String Json := fun _ => .error ("Unexpected token")

/-- A payment-required response with a plain-text body. -/
def c5Fetched : Except String FetchResp :=
  .ok { status := 402, statusText := "Payment Required", text := .ok ("nope") }

/-- C5 counterexample: for a requested identifier that already carries
the `:free` marker — as every identifier in the configured chains
does — a 402 response yields the generic failure reason, which contains
no free-tier-suffix suggestion at all. -/
theorem c5_counterexample :
    (callModelWithPrompt c5Parse ("meta-llama/llama-3-8b-instruct:free") c5Fetched).success = false ∧
    (callModelWithPrompt c5Parse ("meta-llama/llama-3-8b-instruct:free") c5Fetched).error =
      some ("402 Payment Required: nope") ∧
    strIncludes ("402 Payment Required: nope") (":free") = false :=
  ⟨rfl, rfl, rfl⟩

/-- Unfolding equation of `listContains` at a cons cell. -/
theorem listContains_cons (c : Char) (l pat : List Char) :
    listContains (c :: l) pat = (pat.isPrefixOf (c :: l) || listContains l pat) := by
  conv_lhs => rw [listContains]

/-- A pattern contained in a suffix is contained in the whole list. -/
theorem listContains_append_right (a b pat : List Char)
    (h : listContains b pat = true) : listContains (a ++ b) pat = true := by
  induction a with
  | nil => simpa using h
  | cons c rest ih => rw [List.cons_append, listContains_cons, ih, Bool.or_true]

/-- String data of an append. -/
theorem strData_append (s t : String) : (s ++ t).data = s.data ++ t.data := rfl

/-- C5 amended: the free-tier-suffix hint is produced exactly when the
requested identifier does not already contain `:free`: for those
identifiers a 402 response yields a hard failure whose reason names the
model and explicitly suggests adding the `:free` marker (for
identifiers already containing `:free` the reason is the generic
status text plus body, as the counterexample shows). -/
theorem c5_amended_payment_hint (parse : String → Except String Json)
    (model sx T : String) (st : Nat)
    (h1 : st = 402) (h2 : strIncludes model (":free") = false) :
    (callModelWithPrompt parse model
        (.ok { status := st, statusText := sx, text := .ok T })).success = false ∧
    (callModelWithPrompt parse model
        (.ok { status := st, statusText := sx, text := .ok T })).error =
      some ("Payment required for " ++ model ++
        ". Try adding \x27:free\x27 to the model name or choose a different model.") ∧
    strIncludes ("Payment required for " ++ model ++
      ". Try adding \x27:free\x27 to the model name or choose a different model.")
      (":free") = true := by
  subst h1
  refine ⟨?_, ?_, ?_⟩
  · unfold callModelWithPrompt callModelBody
    simp [h2, failResult]
  · unfold callModelWithPrompt callModelBody
    simp [h2, failResult]
  · unfold strIncludes
    rw [strData_append]
    exact listContains_append_right _ _ _ (by rfl)

/-- Witness for the amended C5: a 402 on `openai/gpt-4` (no `:free`
marker) produces the suffix-suggesting failure reason. -/
theorem c5_amended_payment_hint_witness :
    (callModelWithPrompt c5Parse ("openai/gpt-4")
        (.ok { status := 402, statusText := "Payment Required", text := .ok ("nope") })).error =
      some ("Payment required for openai/gpt-4. Try adding \x27:free\x27 to the model name or choose a different model.") :=
  (c5_amended_payment_hint c5Parse ("openai/gpt-4") ("Payment Required") ("nope") 402
    rfl rfl).2.1

/-! ## Claim C6 -/

/-- Parse function of the C6 counterexample: the 429 body carries a
provider hint of `"0s"` — a parsable delay of zero seconds. -/
def c6Parse : String → Except String Json := fun s =>
  if s = "outer" then
    .ok (.obj [("error", .obj [("metadata", .obj [("raw", .str ("inner"))])])])
  else if s = "inner" then
    .ok (.obj [("error", .obj [("details",
      .arr [.obj [("@type", .str ("type.googleapis.com/google.rpc.RetryInfo")),
                  ("retryDelay", .str ("0s"))]])])])
  else .error ("Unexpected token")

/-- The 429 response whose body is the hint-carrying "outer". -/
def c6Fetched : Except String FetchResp :=
  .ok { status := 429, statusText := "Too Many Requests", text := .ok ("outer") }

/-- C6 counterexample: the provider-supplied hint `"0s"` parses to
exactly 0 seconds, yet the invoker proposes 60 seconds
(`parseInt(...) || 60` silently replaces a parsed 0, and likewise an
unparsable hint, by 60) — not the parsed value. -/
theorem c6_counterexample :
    jsParseInt (jsReplaceS ("0s")) = some 0 ∧
    (callModelWithPrompt c6Parse ("g/m:free") c6Fetched).retryAfter = some 60 ∧
    (callModelWithPrompt c6Parse ("g/m:free") c6Fetched).error =
      some ("Rate limit exceeded. Retry after 60 seconds.") :=
  ⟨rfl, rfl, rfl⟩

/-- C6 amended: a 429 response is always classified as a failure with a
reason; when the nested dig finds a string hint whose
`parseInt`-after-`s`-removal value n is nonzero, the invoker proposes
exactly n seconds; a hint parsing to 0 (or to no number) is replaced by
60; and when the dig finds no hint the result proposes no delay at all —
the `retryAfter` field is absent, a state distinct from a zero delay. -/
theorem c6_amended_rate_limit (parse : String → Except String Json)
    (model sx T : String) (body : Json)
    (h1 : parse T = .ok body) :
    (callModelWithPrompt parse model
        (.ok { status := 429, statusText := sx, text := .ok T })).success = false ∧
    (callModelWithPrompt parse model
        (.ok { status := 429, statusText := sx, text := .ok T })).error.isSome = true ∧
    (∀ s n, digRetryDelay parse body = .ok (some (.str s)) →
        jsParseInt (jsReplaceS s) = some n → n ≠ 0 →
        callModelWithPrompt parse model
            (.ok { status := 429, statusText := sx, text := .ok T }) =
          retryResult ("Rate limit exceeded. Retry after " ++ toString n ++ " seconds.") n) ∧
    (digRetryDelay parse body = .ok none →
        callModelWithPrompt parse model
            (.ok { status := 429, statusText := sx, text := .ok T }) =
          failResult ("Rate limit exceeded for " ++ model ++ ". Try again later.")) := by
  have hred : callModelWithPrompt parse model
      (.ok { status := 429, statusText := sx, text := .ok T }) =
      rateLimitedResult parse model T := by
    unfold callModelWithPrompt callModelBody
    simp
  refine ⟨?_, ?_, ?_, ?_⟩
  · rw [hred]
    unfold rateLimitedResult
    split <;> simp [retryResult, failResult]
  · rw [hred]
    unfold rateLimitedResult
    split <;> simp [retryResult, failResult]
  · intro s n hd hp hn
    rw [hred]
    unfold rateLimitedResult rateLimitRetrySeconds
    simp only [h1]
    rw [hd]
    by_cases hs : s = ""
    · subst hs
      have hnone : jsParseInt (jsReplaceS ("")) = none := rfl
      rw [hnone] at hp
      exact absurd hp (by simp)
    · have hts : truthyO (some (.str s)) = true := by
        simp [truthyO, truthy, hs]
      simp only [hts, if_true, hp, if_neg hn]
  · intro hd
    rw [hred]
    unfold rateLimitedResult rateLimitRetrySeconds
    simp only [h1]
    rw [hd]
    simp [truthyO]

/-- Parse function of the C6 witness: the hint is `"7s"`. -/
def c6wParse : String → Except String Json := fun s =>
  if s = "outer" then
    .ok (.obj [("error", .obj [("metadata", .obj [("raw", .str ("inner"))])])])
  else if s = "inner" then
    .ok (.obj [("error", .obj [("details",
      .arr [.obj [("@type", .str ("type.googleapis.com/google.rpc.RetryInfo")),
                  ("retryDelay", .str ("7s"))]])])])
  else .error ("Unexpected token")

/-- Witness for the amended C6: a parsable nonzero hint of 7 seconds is
proposed exactly. -/
theorem c6_amended_rate_limit_witness :
    callModelWithPrompt c6wParse ("g/m:free")
        (.ok { status := 429, statusText := "Too Many Requests", text := .ok ("outer") }) =
      retryResult ("Rate limit exceeded. Retry after 7 seconds.") 7 := by
  have h := c6_amended_rate_limit c6wParse ("g/m:free") ("Too Many Requests") ("outer")
    (.obj [("error", .obj [("metadata", .obj [("raw", .str ("inner"))])])]) rfl
  exact h.2.2.1 ("7s") 7 rfl rfl (by decide)

/-! ## Claim C7 -/

/-- Parse function of the C7 scenario: the body "resp" is well-formed
JSON whose first choice has a message object with no content field. -/
def c7Parse : String → Except String Json := fun s =>
  if s = "resp" then .ok (.obj [("choices", .arr [.obj [("message", .obj [])]])])
  else .error ("Unexpected token")

/-- C7 counterexample: an HTTP-ok, JSON-parsable response whose message
object lacks the content field is classified as a success (with an
absent content), not as a hard failure — the validation only checks
down to the message object, never the content field itself. -/
theorem c7_counterexample :
    (callModelWithPrompt c7Parse ("m/x:free")
        (.ok { status := 200, statusText := "OK", text := .ok ("resp") })).success = true ∧
    (callModelWithPrompt c7Parse ("m/x:free")
        (.ok { status := 200, statusText := "OK", text := .ok ("resp") })).content = none :=
  ⟨rfl, rfl⟩

/-- The `!data.choices || !data.choices[0] || !data.choices[0].message`
validation of the invoker, as a predicate on the parsed body (false
also when reading `.choices` throws on a null body, which the outer
catch converts to a failure). -/
def envelopeOk (data : Json) : Bool :=
  match jsGetE (some data) ("choices") with
  | .error _ => false
  | .ok choicesF =>
    truthyO choicesF && truthyO (jsIdxO choicesF 0) &&
      truthyO (jsOptGet (jsIdxO choicesF 0) ("message"))

/-- C7 amended: for every HTTP-ok, JSON-parsable response the invoker
returns a success exactly when the message envelope is present (truthy
`choices`, truthy first choice, truthy `message` field); a response
lacking the envelope is a hard failure, never a success — but a present
message object whose content field is merely missing is a success with
no content, as the counterexample shows. -/
theorem c7_amended_envelope (parse : String → Except String Json)
    (model sx T : String) (st : Nat) (data : Json)
    (h1 : 200 ≤ st ∧ st ≤ 299) (h2 : parse T = .ok data) :
    (callModelWithPrompt parse model
        (.ok { status := st, statusText := sx, text := .ok T })).success =
      envelopeOk data ∧
    (callModelWithPrompt parse model
        (.ok { status := st, statusText := sx, text := .ok T })).error.isSome =
      !envelopeOk data := by
  have h429 : ¬ st = 429 := by omega
  unfold callModelWithPrompt callModelBody envelopeOk
  simp only [if_neg h429, if_pos h1, h2]
  cases hj : jsGetE (some data) ("choices") with
  | error e => simp [failResult]
  | ok choicesF =>
    by_cases hc1 : truthyO choicesF
    · by_cases hc2 : truthyO (jsIdxO choicesF 0)
      · by_cases hc3 : truthyO (jsOptGet (jsIdxO choicesF 0) ("message"))
        · simp [hc1, hc2, hc3]
        · simp [hc1, hc2, hc3, invalidFormatResult, failResult]
      · simp [hc1, hc2, invalidFormatResult, failResult]
    · simp [hc1, invalidFormatResult, failResult]

/-- Witness for the amended C7: a body with an empty choices object is
missing the envelope and yields a failure. -/
theorem c7_amended_envelope_witness :
    (callModelWithPrompt c7Parse ("m/x:free")
        (.ok { status := 200, statusText := "OK", text := .ok ("resp") })).success =
      envelopeOk (.obj [("choices", .arr [.obj [("message", .obj [])]])]) :=
  (c7_amended_envelope c7Parse ("m/x:free") ("OK") ("resp") 200
    (.obj [("choices", .arr [.obj [("message", .obj [])]])]) (by omega) rfl).1

/-! ## Claim C8 -/

theorem jsSplitChar_ne_nil (sep : Char) (cs : List Char) : jsSplitChar sep cs ≠ [] := by
  induction cs with
  | nil => simp [jsSplitChar]
  | cons c rest ih =>
    unfold jsSplitChar
    by_cases hc : c = sep
    · simp [hc]
    · simp only [if_neg hc]
      cases h : jsSplitChar sep rest with
      | nil => exact absurd h ih
      | cons g gs => simp

theorem takeWhile_append_last_neg (p : Char → Bool) (xs : List Char) (a : Char)
    (h : p a = false) : (xs ++ [a]).takeWhile p = xs.takeWhile p := by
  induction xs with
  | nil => simp [List.takeWhile_cons, h]
  | cons c rest ih =>
    simp only [List.cons_append, List.takeWhile_cons, ih]

theorem takeWhile_append_last_pos_all (p : Char → Bool) (xs : List Char) (a : Char)
    (ha : p a = true) (hall : xs.all p = true) :
    (xs ++ [a]).takeWhile p = xs ++ [a] := by
  induction xs with
  | nil => simp [List.takeWhile_cons, ha]
  | cons c rest ih =>
    simp only [List.all_cons, Bool.and_eq_true] at hall
    simp only [List.cons_append, List.takeWhile_cons, hall.1, if_true, ih hall.2]

theorem takeWhile_append_last_pos_not_all (p : Char → Bool) (xs : List Char) (a : Char)
    (hall : xs.all p = false) :
    (xs ++ [a]).takeWhile p = xs.takeWhile p := by
  induction xs with
  | nil => simp at hall
  | cons c rest ih =>
    simp only [List.all_cons, Bool.and_eq_false_iff] at hall
    rcases hall with h1 | h2
    · simp only [List.cons_append, List.takeWhile_cons, h1]
      simp
    · by_cases hc : p c
      · simp only [List.cons_append, List.takeWhile_cons, hc, if_true, ih h2]
      · simp only [List.cons_append, List.takeWhile_cons, Bool.not_eq_true] at *
        simp [hc]

theorem getLastD_cons_cons {α : Type} (a b : α) (t : List α) (d d' : α) :
    ((a :: b :: t).getLastD d) = ((b :: t).getLastD d') := rfl

theorem jsSplitChar_single (sep : Char) (cs g : List Char)
    (h : jsSplitChar sep cs = [g]) :
    g = cs ∧ cs.all (fun x => !(x == sep)) = true := by
  induction cs generalizing g with
  | nil =>
    unfold jsSplitChar at h
    simp at h
    simp [h]
  | cons c rest ih =>
    unfold jsSplitChar at h
    by_cases hc : c = sep
    · rw [if_pos hc] at h
      rw [List.cons_eq_cons] at h
      exact absurd h.2 (jsSplitChar_ne_nil sep rest)
    · rw [if_neg hc] at h
      cases hsp : jsSplitChar sep rest with
      | nil => exact absurd hsp (jsSplitChar_ne_nil sep rest)
      | cons g' gs' =>
        rw [hsp] at h
        rw [List.cons_eq_cons] at h
        obtain ⟨hg, hgs⟩ := h
        subst hgs
        obtain ⟨hge, hall⟩ := ih g' hsp
        subst hge
        constructor
        · rw [← hg]
        · simp [List.all_cons, hall, hc]

theorem jsSplitChar_of_all_ne (sep : Char) (cs : List Char)
    (h : cs.all (fun x => !(x == sep)) = true) : jsSplitChar sep cs = [cs] := by
  induction cs with
  | nil => rfl
  | cons c rest ih =>
    rw [List.all_cons, Bool.and_eq_true] at h
    have hc : ¬ c = sep := by
      have hb := h.1
      simp at hb
      exact hb
    unfold jsSplitChar
    rw [if_neg hc, ih h.2]

/-- The source's `split('/').pop()` composite equals the suffix of the
character list after its last separator. -/
theorem splitPop_eq (sep : Char) (cs : List Char) :
    (jsSplitChar sep cs).getLastD [] =
      (cs.reverse.takeWhile (fun c => !(c == sep))).reverse := by
  induction cs with
  | nil => rfl
  | cons c rest ih =>
    obtain ⟨g, gs, hg⟩ : ∃ g gs, jsSplitChar sep rest = g :: gs := by
      cases h : jsSplitChar sep rest with
      | nil => exact absurd h (jsSplitChar_ne_nil sep rest)
      | cons g gs => exact ⟨g, gs, rfl⟩
    by_cases hc : c = sep
    · subst hc
      have h1 : jsSplitChar c (c :: rest) = [] :: jsSplitChar c rest := by
        simp [jsSplitChar]
      rw [h1, hg, getLastD_cons_cons [] g gs [] [], ← hg, ih, List.reverse_cons,
        takeWhile_append_last_neg _ _ _ (by simp)]
    · have h1 : jsSplitChar sep (c :: rest) = (c :: g) :: gs := by
        simp only [jsSplitChar]
        rw [if_neg hc, hg]
      rw [h1, List.reverse_cons]
      cases gs with
      | nil =>
        obtain ⟨hge, hall⟩ := jsSplitChar_single sep rest g hg
        subst hge
        rw [takeWhile_append_last_pos_all _ _ _ (by simp [hc])
          (by rw [List.all_reverse]; exact hall)]
        simp
      | cons g2 gs2 =>
        rw [getLastD_cons_cons (c :: g) g2 gs2 [] []]
        have h2 : (jsSplitChar sep rest).getLastD [] = (g2 :: gs2).getLastD ([] : List Char) := by
          rw [hg]
          exact getLastD_cons_cons g g2 gs2 [] []
        rw [← h2, ih]
        have hnotall : rest.reverse.all (fun x => !(x == sep)) = false := by
          rw [List.all_reverse]
          by_contra hcon
          rw [Bool.not_eq_false] at hcon
          have hsingle := jsSplitChar_of_all_ne sep rest hcon
          rw [hsingle] at hg
          simp at hg
        rw [takeWhile_append_last_pos_not_all _ _ _ hnotall]

/-- On a segment free of line terminators, the regex strip
`replace(/:.*$/, '')` removes everything from the first colon on. -/
theorem regexColonStrip_of_no_lineterm (cs : List Char)
    (h : cs.all (fun c => !isLineTerm c) = true) :
    regexColonStrip cs = cs.takeWhile (fun c => !(c == ':')) := by
  induction cs with
  | nil => rfl
  | cons c rest ih =>
    rw [List.all_cons, Bool.and_eq_true] at h
    unfold regexColonStrip
    by_cases hc : c = ':'
    · rw [if_pos (by simp [hc, h.2])]
      simp [List.takeWhile_cons, hc]
    · rw [if_neg (by simp [hc]), ih h.2]
      simp [List.takeWhile_cons, hc]

theorem all_takeWhile (p q : Char → Bool) (l : List Char) (h : l.all q = true) :
    (l.takeWhile p).all q = true := by
  induction l with
  | nil => rfl
  | cons c rest ih =>
    rw [List.all_cons, Bool.and_eq_true] at h
    rw [List.takeWhile_cons]
    cases hp : p c
    · simp
    · simp only [if_true]
      rw [List.all_cons, Bool.and_eq_true]
      exact ⟨h.1, ih h.2⟩

/-- Modelled from the spec: the "segment of m after the last '/'" of
claim C8 — the suffix of the identifier after its last slash. -/
def specSegmentAfterLastSlash (m : String) : String :=
  String.mk ((m.data.reverse.takeWhile (fun c => !(c == '/'))).reverse)

/-- Modelled from the spec: the claimed short name of C8 — "the segment
of m after the last '/' with any ':'-suffix removed", the suffix
removal starting at the first colon of the segment. -/
def specShortName (m : String) : String :=
  String.mk ((specSegmentAfterLastSlash m).data.takeWhile (fun c => !(c == ':')))

/-- For identifiers free of line terminators, the source's short name
equals the spec's. -/
theorem shortModelName_eq_spec (m : String)
    (h : m.data.all (fun c => !isLineTerm c) = true) :
    shortModelName m = specShortName m := by
  unfold shortModelName specShortName specSegmentAfterLastSlash
  rw [splitPop_eq]
  rw [regexColonStrip_of_no_lineterm]
  rw [List.all_reverse]
  exact all_takeWhile _ _ _ (by rw [List.all_reverse]; exact h)

/-- C8 counterexample: for an identifier whose post-slash segment
contains a newline before the colon, `.` cannot span the line break and
`$` (no `m` flag) only matches at the very end, so the regex
`/:.*$/` does not match and no ':'-suffix is removed: the file is named
with the colon suffix intact, unlike the claimed name. -/
theorem c8_counterexample :
    (saveResults ("x/a:b\nc") ("t") { success := true, content := "C", error := "E" }).fileName =
      "a:b\nc-t.md" ∧
    specShortName ("x/a:b\nc") = "a" ∧
    (saveResults ("x/a:b\nc") ("t") { success := true, content := "C", error := "E" }).fileName ≠
      specShortName ("x/a:b\nc") ++ "-" ++ "t" ++ ".md" :=
  ⟨rfl, rfl, by decide⟩

/-- C8 amended: for every model identifier free of line terminators
(every real identifier), every task name and every result,
`saveResults` writes exactly one file named `s-t.md` where s is the
segment after the last '/' with the ':'-suffix removed; on success the
content is the result's content verbatim, on failure it is the
human-readable error document naming s and the error reason. -/
theorem c8_amended_save (m task : String) (r : SaveInput)
    (h : m.data.all (fun c => !isLineTerm c) = true) :
    (saveResults m task r).fileName = specShortName m ++ "-" ++ task ++ ".md" ∧
    (saveResults m task r).content =
      (if r.success then r.content
       else "# Error with " ++ specShortName m ++ "\n\n" ++ r.error) := by
  have hs := shortModelName_eq_spec m h
  unfold saveResults
  rw [hs]
  exact ⟨rfl, rfl⟩

/-- Witness for the amended C8 at a concrete model, task and failure
result. -/
theorem c8_amended_save_witness :
    (saveResults ("google/gemini-2.0-pro-exp-02-05:free") ("schema")
        { success := false, content := "C", error := "boom" }).fileName =
      specShortName ("google/gemini-2.0-pro-exp-02-05:free") ++ "-" ++ "schema" ++ ".md" :=
  (c8_amended_save ("google/gemini-2.0-pro-exp-02-05:free") ("schema")
    { success := false, content := "C", error := "boom" } (by decide)).1

/-! ## Claim C10 -/

/-- Environment of the C10 counterexample: every fetch rejects. -/
def c10Env : String → Except String OResponse := fun _ => .error ("fetch failed")

/-- C10 counterexample: a caller that supplies the explicit (but empty,
hence falsy) model `""` does not get a single-model attempt — the
destructured default only applies to `undefined` while the
`options.model ?` guard tests truthiness, so the whole built-in
six-model chain is traversed. -/
theorem c10_counterexample :
    (analyzeWithOpenRouter c10Env (some (""))).2 = MODEL_FALLBACKS ∧
    MODEL_FALLBACKS.length = 6 ∧
    (analyzeWithOpenRouter c10Env (some (""))).2 ≠ [""] ∧
    (analyzeWithOpenRouter c10Env (some (""))).1 = .error ("fetch failed") :=
  ⟨rfl, rfl, by decide, rfl⟩

/-- C10 amended: when the caller supplies an explicit non-empty
`options.model`, only that single model is ever attempted — the
built-in chain is skipped — and the call either returns that model's
extracted content or raises that model's error, with no alternate
backend substituted. -/
theorem c10_amended_single_model (env : String → Except String OResponse)
    (m : String) (h : m ≠ "") :
    (analyzeWithOpenRouter env (some m)).2 = [m] ∧
    (∀ v, analyzeAttempt env m = .ret v → (analyzeWithOpenRouter env (some m)).1 = .ok v) ∧
    (∀ e, analyzeAttempt env m = .fail e → (analyzeWithOpenRouter env (some m)).1 = .error e) := by
  have hm : truthyOptStr (some m) = true := by
    simp [truthyOptStr, h]
  unfold analyzeWithOpenRouter
  simp only [hm, if_true, Option.getD_some]
  refine ⟨?_, ?_, ?_⟩
  · unfold analyzeLoop
    cases ha : analyzeAttempt env m <;> simp [analyzeLoop]
  · intro v hv
    unfold analyzeLoop
    rw [hv]
  · intro e he
    unfold analyzeLoop
    rw [he]
    simp [analyzeLoop]

/-- Environment of the C10 witness: HTTP 200 with a body whose
top-level `message` field supplies the content. -/
def c10wEnv : String → Except String OResponse := fun _ =>
  .ok { status := 200, body := .ok (.obj [("message", .str ("hi"))]) }

/-- Witness for the amended C10: an explicit non-empty model is the
only attempt and its content is returned. -/
theorem c10_amended_single_model_witness :
    (analyzeWithOpenRouter c10wEnv (some ("solo/model"))).2 = ["solo/model"] :=
  (c10_amended_single_model c10wEnv ("solo/model") (by decide)).1
